import Mathlib

/-!
Verification of the devlog instrumentation library against its specification.

The development shallow-embeds the relevant parts of the source:

* `src/devlog/sanitize.py` — the `Sensitive` transparent proxy, `unwrap_sensitive`
  and `format_value`, modelled over a small universe `PyVal` of Python values
  (ints, strings, None, lists, named functions, and `Sensitive` wrappers).
* `src/devlog/base.py` — `WrapCallback._devlog_executor` /
  `_async_devlog_executor` / `__call__`, `LoggingDecorator.build_msg`
  (the `args_kwargs=True` branch with the default on-start template),
  `LoggingDecorator._unwrap_args`, `_is_internal_file` and
  `get_stack_summary`, and the `trace_stack` / `capture_locals` coupling in
  `LoggingDecorator.__init__`.
* `src/devlog/decorators.py` — `LogOnStart._devlog_executor`,
  `LogOnError.__init__`, `LogOnError._devlog_executor` and
  `LogOnError._on_error`, including the per-exception-instance `reraised`
  mark used for cross-decorator deduplication.

Dunder operations of `Sensitive` are modelled as total dispatch functions on
`PyVal` that mirror Python operator dispatch (including reflected operands),
returning `Option` results where Python would raise `TypeError`.
-/

/-- A Python single quote character, used by `repr` of strings. -/
def pyQuote : String := "\x27"

/-- A small universe of Python values sufficient for the devlog claims.
`sensitive v m` models `Sensitive(v, mask=m)` from `src/devlog/sanitize.py`;
`vfun f` models a function object identified by its name. -/
inductive PyVal : Type where
  | vint : Int → PyVal
  | vstr : String → PyVal
  | vnone : PyVal
  | vlist : List PyVal → PyVal
  | vfun : String → PyVal
  | sensitive : PyVal → String → PyVal

/-- Models `isinstance(value, Sensitive)`. -/
def isSensitive : PyVal → Bool
  | .sensitive _ _ => true
  | _ => false

/-- Models `object.__getattribute__(value, "_devlog_mask")`; only meaningful
when `isSensitive` holds (Python would raise `AttributeError` otherwise). -/
def maskOf : PyVal → String
  | .sensitive _ m => m
  | _ => ""

/-- Models `unwrap_sensitive` (src/devlog/sanitize.py:125-129): return
`value.real_value` for a `Sensitive`, the value unchanged otherwise. -/
def unwrap_sensitive : PyVal → PyVal
  | .sensitive v _ => v
  | v => v

mutual

/-- Python `repr` on the `PyVal` universe.  `Sensitive.__repr__`
(src/devlog/sanitize.py:45-46) delegates to the real value. -/
def reprV : PyVal → String
  | .vint n => toString n
  | .vstr s => pyQuote ++ s ++ pyQuote
  | .vnone => "None"
  | .vlist xs => "[" ++ reprList xs ++ "]"
  | .vfun f => "<function " ++ f ++ ">"
  | .sensitive v _ => reprV v

/-- `repr` of the elements of a Python list, comma separated. -/
def reprList : List PyVal → String
  | [] => ""
  | [x] => reprV x
  | x :: y :: xs => reprV x ++ ", " ++ reprList (y :: xs)

end

/-- Python truthiness of the optional `sanitize_params` set: `None` and the
empty set are falsy. -/
def truthySet : Option (List String) → Bool
  | none => false
  | some l => !l.isEmpty

/-- Models `format_value` (src/devlog/sanitize.py:132-139): return the mask
for a `Sensitive`, `"***"` when the deny list is truthy and contains the
parameter name, and `repr(value)` otherwise. -/
def format_value (value : PyVal) (param_name : String)
    (sanitize_params : Option (List String)) : String :=
  if isSensitive value then maskOf value
  else if truthySet sanitize_params && (sanitize_params.getD []).contains param_name then "***"
  else reprV value

/-!
Operator dispatch for the `Sensitive` proxy (src/devlog/sanitize.py:69-122).

Each binary operation mirrors Python dispatch: when the left operand is a
`Sensitive`, its dunder runs `real_value OP other_val` where `other_val`
unwraps a `Sensitive` right operand once (the clause for two `sensitive`
arguments) and is the right operand unchanged otherwise; when only the right
operand is a `Sensitive`, the plain left operand's dunder returns
`NotImplemented` and the reflected method of the wrapper runs against the
real value.  The resulting `OP` re-dispatches, which the recursion models.
-/

mutual

/-- Python `==` on the universe, with `Sensitive.__eq__`
(src/devlog/sanitize.py:69-72) delegating to the real values on both sides.
Plain values compare structurally; values of different kinds are unequal. -/
def pyEq : PyVal → PyVal → Bool
  | .sensitive v _, .sensitive w _ => pyEq v w
  | .sensitive v _, w => pyEq v w
  | v, .sensitive w _ => pyEq v w
  | .vint m, .vint n => m == n
  | .vstr s, .vstr t => s == t
  | .vnone, .vnone => true
  | .vfun f, .vfun g => f == g
  | .vlist xs, .vlist ys => pyEqList xs ys
  | _, _ => false

/-- Python list equality: elementwise `==` (which itself unwraps any
`Sensitive` element). -/
def pyEqList : List PyVal → List PyVal → Bool
  | [], [] => true
  | a :: as, b :: bs => pyEq a b && pyEqList as bs
  | _, _ => false

end

/-- Python `<` with `Sensitive.__lt__` (src/devlog/sanitize.py:77-80) and the
reflected `__gt__` for a plain left operand; `none` models `TypeError`
between incomparable kinds. -/
def pyLt : PyVal → PyVal → Option Bool
  | .sensitive v _, .sensitive w _ => pyLt v w
  | .sensitive v _, w => pyLt v w
  | v, .sensitive w _ => pyLt v w
  | .vint m, .vint n => some (decide (m < n))
  | .vstr s, .vstr t => some (decide (s < t))
  | _, _ => none

/-- Python `<=` with `Sensitive.__le__` (src/devlog/sanitize.py:82-85) and
the reflected `__ge__` for a plain left operand. -/
def pyLe : PyVal → PyVal → Option Bool
  | .sensitive v _, .sensitive w _ => pyLe v w
  | .sensitive v _, w => pyLe v w
  | v, .sensitive w _ => pyLe v w
  | .vint m, .vint n => some (decide (m ≤ n))
  | .vstr s, .vstr t => some (decide (s < t) || s == t)
  | _, _ => none

/-- Python `+` with `Sensitive.__add__` / `__radd__`
(src/devlog/sanitize.py:97-104); ints, strings, and lists add within their
own kind, anything else is a `TypeError`. -/
def pyAdd : PyVal → PyVal → Option PyVal
  | .sensitive v _, .sensitive w _ => pyAdd v w
  | .sensitive v _, w => pyAdd v w
  | v, .sensitive w _ => pyAdd v w
  | .vint m, .vint n => some (.vint (m + n))
  | .vstr s, .vstr t => some (.vstr (s ++ t))
  | .vlist xs, .vlist ys => some (.vlist (xs ++ ys))
  | _, _ => none

/-- String repetition `s * n`, empty for non-positive `n`, as in Python. -/
def repeatStr (s : String) (n : Int) : String :=
  String.join (List.replicate n.toNat s)

/-- Python `*` with `Sensitive.__mul__` / `__rmul__`
(src/devlog/sanitize.py:106-113); int times int, and string repetition. -/
def pyMul : PyVal → PyVal → Option PyVal
  | .sensitive v _, .sensitive w _ => pyMul v w
  | .sensitive v _, w => pyMul v w
  | v, .sensitive w _ => pyMul v w
  | .vint m, .vint n => some (.vint (m * n))
  | .vstr s, .vint n => some (.vstr (repeatStr s n))
  | .vint n, .vstr s => some (.vstr (repeatStr s n))
  | _, _ => none

/-- Python `len` with `Sensitive.__len__` (src/devlog/sanitize.py:51-52)
delegating to the real value; ints, None and functions have no length. -/
def pyLen : PyVal → Option Nat
  | .sensitive v _ => pyLen v
  | .vlist xs => some xs.length
  | .vstr s => some s.length
  | _ => none

/-- Python `item in container` with `Sensitive.__contains__`
(src/devlog/sanitize.py:57-58) delegating to the real container.  List
membership compares elementwise with `==`; string membership is substring
search and requires a string operand, as in Python. -/
def pyContains : PyVal → PyVal → Option Bool
  | .sensitive v _, item => pyContains v item
  | .vlist xs, item => some (xs.any (fun e => pyEq e item))
  | .vstr s, .vstr t => some (t.isEmpty || decide (2 ≤ (s.splitOn t).length))
  | _, _ => none

/-- Python `container[key]` with `Sensitive.__getitem__`
(src/devlog/sanitize.py:60-61) delegating to the real container; lists and
strings index by int, with Python negative indexing, `none` on a bad index
or key kind. -/
def pyGetItem : PyVal → PyVal → Option PyVal
  | .sensitive v _, k => pyGetItem v k
  | .vlist xs, .vint i =>
      if 0 ≤ i then xs.get? i.toNat
      else if (-i).toNat ≤ xs.length then xs.get? (xs.length - (-i).toNat)
      else none
  | .vstr s, .vint i =>
      if 0 ≤ i then (s.data.get? i.toNat).map (fun c => .vstr (String.singleton c))
      else if (-i).toNat ≤ s.length then
        (s.data.get? (s.length - (-i).toNat)).map (fun c => .vstr (String.singleton c))
      else none
  | _, _ => none

/-- Python `iter` with `Sensitive.__iter__` (src/devlog/sanitize.py:54-55)
delegating to the real value, presented as the list of produced elements. -/
def pyIter : PyVal → Option (List PyVal)
  | .sensitive v _ => pyIter v
  | .vlist xs => some xs
  | .vstr s => some (s.data.map (fun c => .vstr (String.singleton c)))
  | _ => none

/-- Python `hash` with `Sensitive.__hash__` (src/devlog/sanitize.py:74-75)
delegating to the real value; lists are unhashable (`none`). -/
def pyHash : PyVal → Option Nat
  | .sensitive v _ => pyHash v
  | .vint n => some (2 * n.natAbs + (if n < 0 then 1 else 0))
  | .vstr s => some s.hash.toNat
  | .vnone => some 0
  | .vfun f => some f.hash.toNat
  | .vlist _ => none

/-- Python call `value(x)` with `Sensitive.__call__`
(src/devlog/sanitize.py:121-122) delegating to the real value; `ρ` gives the
meaning of each named function, non-callables are a `TypeError`. -/
def applyF (ρ : String → PyVal → PyVal) : PyVal → PyVal → Option PyVal
  | .sensitive v _, x => applyF ρ v x
  | .vfun f, x => some (ρ f x)
  | _, _ => none

/-!
Message construction (src/devlog/base.py:146-168, `args_kwargs=True` branch)
with the default `LogOnStart` template
`"Start func {f} with args {args}, kwargs {kwargs}"`
(src/devlog/decorators.py:32-34).  `str.format` renders a tuple or dict
argument with `str`, which displays the elements with `repr`.
-/

/-- Python `str` of a tuple of values, elements rendered with `repr`. -/
def tupleRepr (xs : List PyVal) : String :=
  match xs with
  | [] => "()"
  | [x] => "(" ++ reprV x ++ ",)"
  | _ => "(" ++ String.intercalate ", " (xs.map reprV) ++ ")"

/-- Python `str` of a string-keyed dict, keys and values rendered with
`repr`. -/
def dictRepr (kvs : List (String × PyVal)) : String :=
  "\x7b" ++
    String.intercalate ", "
      (kvs.map (fun kv => pyQuote ++ kv.1 ++ pyQuote ++ ": " ++ reprV kv.2)) ++
  "\x7d"

/-- The `sanitized_args` expression of `build_msg` (src/devlog/base.py:154-156):
format each positional argument only when the deny list is truthy or some
argument is a `Sensitive`; otherwise pass the raw tuple through. -/
def sanitized_args (sp : Option (List String)) (fn_args : List PyVal) : List PyVal :=
  if truthySet sp || fn_args.any isSensitive then
    fn_args.map (fun a => .vstr (format_value a "" sp))
  else fn_args

/-- The `sanitized_kwargs` expression of `build_msg` (src/devlog/base.py:157-159):
format each keyword value only when the deny list is truthy or some value is
a `Sensitive`; otherwise pass the raw dict through. -/
def sanitized_kwargs (sp : Option (List String)) (fn_kwargs : List (String × PyVal)) :
    List (String × PyVal) :=
  if truthySet sp || fn_kwargs.any (fun kv => isSensitive kv.2) then
    fn_kwargs.map (fun kv => (kv.1, .vstr (format_value kv.2 kv.1 sp)))
  else fn_kwargs

/-- Models `LoggingDecorator.build_msg` (src/devlog/base.py:146-168) for the
`args_kwargs=True` branch, instantiated with the default on-start template. -/
def build_msg (sp : Option (List String)) (fname : String)
    (fn_args : List PyVal) (fn_kwargs : List (String × PyVal)) : String :=
  "Start func " ++ fname ++ " with args " ++ tupleRepr (sanitized_args sp fn_args) ++
    ", kwargs " ++ dictRepr (sanitized_kwargs sp fn_kwargs)

/-- Modelled from the spec: the unoptimized variant of `build_msg` that
always applies `format_value` element-wise, regardless of whether a
`Sensitive` argument is present or the deny list is non-empty.  The source
only contains the optimized path; this comparator follows §4.2 of the spec
("applies format_value element-wise ... but the observable result must be
identical whether or not this optimization is applied"). -/
def build_msg_forced (sp : Option (List String)) (fname : String)
    (fn_args : List PyVal) (fn_kwargs : List (String × PyVal)) : String :=
  "Start func " ++ fname ++ " with args " ++
    tupleRepr (fn_args.map (fun a => .vstr (format_value a "" sp))) ++
    ", kwargs " ++
    dictRepr (fn_kwargs.map (fun kv => (kv.1, .vstr (format_value kv.2 kv.1 sp))))

/-!
The call-interception pipeline (src/devlog/base.py:15-44 and
src/devlog/decorators.py:36-38).  A target callable takes the positional and
keyword arguments it was invoked with; an executor returns the list of
emitted log messages together with the target's result.
-/

/-- A target callable over the universe. -/
def Target : Type := List PyVal → List (String × PyVal) → PyVal

/-- Models `WrapCallback._devlog_executor` (src/devlog/base.py:24-26): invoke
`fn` with the arguments exactly as received. -/
def WrapCallback_devlog_executor (fn : Target) (args : List PyVal)
    (kwargs : List (String × PyVal)) : List String × PyVal :=
  ([], fn args kwargs)

/-- Models `WrapCallback._async_devlog_executor` (src/devlog/base.py:28-30):
await `fn` with the arguments exactly as received, emitting nothing. -/
def WrapCallback_async_devlog_executor (fn : Target) (args : List PyVal)
    (kwargs : List (String × PyVal)) : List String × PyVal :=
  ([], fn args kwargs)

/-- Models `LogOnStart._devlog_executor` (src/devlog/decorators.py:36-38):
emit the start message built from the raw arguments, then run the base
executor, which calls `fn` with those same arguments. -/
def LogOnStart_devlog_executor (sp : Option (List String)) (fname : String)
    (fn : Target) (args : List PyVal) (kwargs : List (String × PyVal)) :
    List String × PyVal :=
  let inner := WrapCallback_devlog_executor fn args kwargs
  (build_msg sp fname args kwargs :: inner.1, inner.2)

/-- Models `WrapCallback.__call__` (src/devlog/base.py:32-44) for a
`LogOnStart` instance: a coroutine target is routed to
`_async_devlog_executor`, which `LogOnStart` does not override, while a
plain target is routed to the overridden `_devlog_executor`. -/
def LogOnStart_wrapped_call (isCoroutine : Bool) (sp : Option (List String))
    (fname : String) (fn : Target) (args : List PyVal)
    (kwargs : List (String × PyVal)) : List String × PyVal :=
  if isCoroutine then WrapCallback_async_devlog_executor fn args kwargs
  else LogOnStart_devlog_executor sp fname fn args kwargs

/-- Models the classification of the wrapper produced by
`WrapCallback.__call__`: the wrapper is declared `async def` exactly when
`asyncio.iscoroutinefunction(fn)` held for the target. -/
def devlog_wrapper_is_async (fnIsCoroutine : Bool) : Bool :=
  fnIsCoroutine

/-- Models `LoggingDecorator._unwrap_args` (src/devlog/base.py:170-175):
unwrap every `Sensitive` positional and keyword argument.  Note that no
executor in the source ever calls this helper. -/
def unwrap_args (args : List PyVal) (kwargs : List (String × PyVal)) :
    List PyVal × List (String × PyVal) :=
  (args.map unwrap_sensitive, kwargs.map (fun kv => (kv.1, unwrap_sensitive kv.2)))

/-- The capture target of test `test_sensitive_unwrapped_for_function`
(src/tests/test_generic.py:322-333): returns the first positional argument
it actually received. -/
def capture_fn : Target := fun args _ => args.headD .vnone

/-- The async target `async_generic_func` of the test suite
(src/tests/test_generic.py:19-20): returns the sum of its two arguments. -/
def async_add_fn : Target := fun args _ =>
  match args with
  | [.vint a, .vint b] => .vint (a + b)
  | _ => .vnone

/-!
The `LogOnError` decorator (src/devlog/decorators.py:101-171).  An exception
instance carries the ids of its runtime type and all superclasses, plus the
ad hoc `reraised` attribute that `_on_error` attaches the first time it logs
the instance (`hasattr(exception, "reraised")` is `false` until then).
-/

/-- An exception instance: `cls` lists the ids of the runtime type and its
superclasses, `reraised` models `hasattr(exception, "reraised")`. -/
structure Exc : Type where
  cls : List Nat
  reraised : Bool
deriving DecidableEq, Repr

/-- Configuration of one `LogOnError` wrapping
(src/devlog/decorators.py:121-135): `on_exceptions = none` models the
`BaseException` default, which every exception class subclasses; `reraise`
is the re-raise/suppress policy. -/
structure LogOnErrorCfg : Type where
  on_exceptions : Option (List Nat)
  reraise : Bool
deriving DecidableEq, Repr

/-- Models `issubclass(exception.__class__, self.on_exceptions)`
(src/devlog/decorators.py:167). -/
def exceptionMatches (cfg : LogOnErrorCfg) (e : Exc) : Bool :=
  match cfg.on_exceptions with
  | none => true
  | some ks => ks.any (fun k => e.cls.contains k)

/-- The fixed failure-message token; the claims about `LogOnError` concern
how many messages are emitted, not their text. -/
def LogOnError_message : String := "Error in func"

/-- Result of one call through the pipeline: a returned value or a
propagating exception instance. -/
inductive Outcome : Type where
  | ok : PyVal → Outcome
  | raised : Exc → Outcome

/-- Models `LogOnError._on_error` (src/devlog/decorators.py:165-171): when
the exception matches the configured kinds and carries no `reraised` mark,
log once and mark the instance; then re-raise when the policy says so, and
otherwise fall through, which makes `_devlog_executor` return `None`. -/
def LogOnError_on_error (cfg : LogOnErrorCfg) (e : Exc) : List String × Outcome :=
  if exceptionMatches cfg e && !e.reraised then
    let marked : Exc := ⟨e.cls, true⟩
    ([LogOnError_message], if cfg.reraise then .raised marked else .ok .vnone)
  else
    ([], if cfg.reraise then .raised e else .ok .vnone)

/-- Models `LogOnError._devlog_executor` (src/devlog/decorators.py:138-142)
applied to the messages and outcome of the wrapped inner call: a normal
return passes through; a raised `BaseException` goes to `_on_error`. -/
def LogOnError_devlog_executor (cfg : LogOnErrorCfg)
    (inner : List String × Outcome) : List String × Outcome :=
  match inner with
  | (msgs, .ok v) => (msgs, .ok v)
  | (msgs, .raised e) =>
      let handled := LogOnError_on_error cfg e
      (msgs ++ handled.1, handled.2)

/-- `N` nested `LogOnError` wrappers around a base call outcome, with the
configurations listed innermost first. -/
def nest_log_on_error (cfgs : List LogOnErrorCfg) (base : Outcome) :
    List String × Outcome :=
  cfgs.foldl (fun acc cfg => LogOnError_devlog_executor cfg acc) ([], base)

/-!
Stack capture and internal-frame filtering (src/devlog/base.py:114-125).
The registry `_internal_files` is a set of filenames populated at import
time by base.py and decorators.py (src/devlog/base.py:183-184,
src/devlog/decorators.py:174-175); `get_stack_summary` walks the live stack
innermost-first, reverses it, and yields the frames that survive the filter.
-/

/-- A captured stack frame, identified by source location. -/
structure FrameSummary : Type where
  filename : String
  lineno : Nat
deriving DecidableEq, Repr

/-- Models `LoggingDecorator._is_internal_file` (src/devlog/base.py:114-116):
membership of the filename in the `_internal_files` registry. -/
def is_internal_file (registry : List String) (filename : String) : Bool :=
  registry.contains filename

/-- The concrete registry contents after importing the package: base.py and
decorators.py register their own files. -/
def devlog_internal_files : List String :=
  ["devlog/base.py", "devlog/decorators.py"]

/-- Models `LoggingDecorator.get_stack_summary` (src/devlog/base.py:118-125):
reverse the walked stack, then keep each frame whenever internal frames are
requested or its filename is not registered. -/
def get_stack_summary (registry : List String) (include_decorator : Bool)
    (stack : List FrameSummary) : List FrameSummary :=
  stack.reverse.filter
    (fun frame => include_decorator || !is_internal_file registry frame.filename)

/-!
The `trace_stack` / `capture_locals` coupling.  `LoggingDecorator.__init__`
(src/devlog/base.py:73-94) sets `trace_stack = trace_stack or capture_locals`;
`LogOnError.__init__` (src/devlog/decorators.py:121-136) additionally sets
`capture_locals = trace_stack or capture_locals` after the base constructor.
-/

/-- The two capture flags of a constructed decorator. -/
structure CaptureFlags : Type where
  trace_stack : Bool
  capture_locals : Bool
deriving DecidableEq, Repr

/-- Models the flag assignments of `LoggingDecorator.__init__`
(src/devlog/base.py:91-92). -/
def LoggingDecorator_init_flags (trace_stack capture_locals : Bool) : CaptureFlags :=
  ⟨trace_stack || capture_locals, capture_locals⟩

/-- Models the flag assignments of `LogOnError.__init__`
(src/devlog/decorators.py:125,136): run the base constructor, then force
`capture_locals` whenever `trace_stack` ended up set. -/
def LogOnError_init_flags (trace_stack capture_locals : Bool) : CaptureFlags :=
  let base := LoggingDecorator_init_flags trace_stack capture_locals
  ⟨base.trace_stack, base.trace_stack || base.capture_locals⟩

/-!
Helper lemmas.  The binary operations of the `Sensitive` proxy all follow
the same dispatch pattern; `sensitive_dispatch` proves once that such a
pattern delegates to the real value on either side.
-/

/-- A binary operation whose clauses mirror the `Sensitive` dispatch pattern
observes the real value of a wrapped operand on either side. -/
theorem sensitive_dispatch {α : Type} (F : PyVal → PyVal → α)
    (h1 : ∀ v m w k, F (.sensitive v m) (.sensitive w k) = F v w)
    (h2 : ∀ v m w, isSensitive w = false → F (.sensitive v m) w = F v w)
    (h3 : ∀ v w k, isSensitive v = false → F v (.sensitive w k) = F v w) :
    ∀ v w m, F (.sensitive v m) w = F v w ∧ F v (.sensitive w m) = F v w := by
  have key : ∀ n : Nat, ∀ v w : PyVal, sizeOf v + sizeOf w ≤ n →
      ∀ m, F (.sensitive v m) w = F v w ∧ F v (.sensitive w m) = F v w := by
    intro n
    induction n with
    | zero =>
        intro v w h
        exfalso
        cases v <;> simp at h
    | succ n ih =>
        intro v w h m
        constructor
        · cases v with
          | sensitive u j =>
              cases w with
              | sensitive w2 k =>
                  have hn : sizeOf u + sizeOf w2 ≤ n := by
                    simp at h; omega
                  rw [h1, h1, (ih u w2 hn j).1]
              | vint i => exact h2 _ _ _ rfl
              | vstr s => exact h2 _ _ _ rfl
              | vnone => exact h2 _ _ _ rfl
              | vlist xs => exact h2 _ _ _ rfl
              | vfun f => exact h2 _ _ _ rfl
          | vint i =>
              cases w with
              | sensitive w2 k => rw [h1]; exact (h3 (PyVal.vint i) w2 k rfl).symm
              | vint i2 => exact h2 _ _ _ rfl
              | vstr s => exact h2 _ _ _ rfl
              | vnone => exact h2 _ _ _ rfl
              | vlist xs => exact h2 _ _ _ rfl
              | vfun f => exact h2 _ _ _ rfl
          | vstr s =>
              cases w with
              | sensitive w2 k => rw [h1]; exact (h3 (PyVal.vstr s) w2 k rfl).symm
              | vint i2 => exact h2 _ _ _ rfl
              | vstr s2 => exact h2 _ _ _ rfl
              | vnone => exact h2 _ _ _ rfl
              | vlist xs => exact h2 _ _ _ rfl
              | vfun f => exact h2 _ _ _ rfl
          | vnone =>
              cases w with
              | sensitive w2 k => rw [h1]; exact (h3 PyVal.vnone w2 k rfl).symm
              | vint i2 => exact h2 _ _ _ rfl
              | vstr s => exact h2 _ _ _ rfl
              | vnone => exact h2 _ _ _ rfl
              | vlist xs => exact h2 _ _ _ rfl
              | vfun f => exact h2 _ _ _ rfl
          | vlist xs =>
              cases w with
              | sensitive w2 k => rw [h1]; exact (h3 (PyVal.vlist xs) w2 k rfl).symm
              | vint i2 => exact h2 _ _ _ rfl
              | vstr s => exact h2 _ _ _ rfl
              | vnone => exact h2 _ _ _ rfl
              | vlist ys => exact h2 _ _ _ rfl
              | vfun f => exact h2 _ _ _ rfl
          | vfun f =>
              cases w with
              | sensitive w2 k => rw [h1]; exact (h3 (PyVal.vfun f) w2 k rfl).symm
              | vint i2 => exact h2 _ _ _ rfl
              | vstr s => exact h2 _ _ _ rfl
              | vnone => exact h2 _ _ _ rfl
              | vlist xs => exact h2 _ _ _ rfl
              | vfun g => exact h2 _ _ _ rfl
        · cases v with
          | sensitive u j =>
              have hn : sizeOf u + sizeOf w ≤ n := by
                simp at h; omega
              rw [h1]; exact ((ih u w hn j).1).symm
          | vint i => exact h3 _ _ _ rfl
          | vstr s => exact h3 _ _ _ rfl
          | vnone => exact h3 _ _ _ rfl
          | vlist xs => exact h3 _ _ _ rfl
          | vfun f => exact h3 _ _ _ rfl
  intro v w m
  exact key (sizeOf v + sizeOf w) v w (Nat.le_refl _) m

/-- Clause equations of `pyEq` for a wrapped left operand. -/
theorem pyEq_delegate (v w : PyVal) (m : String) :
    pyEq (.sensitive v m) w = pyEq v w ∧ pyEq v (.sensitive w m) = pyEq v w := by
  refine sensitive_dispatch pyEq ?_ ?_ ?_ v w m
  · intro v m w k; simp [pyEq]
  · intro v m w hw; cases w <;> simp_all [pyEq, isSensitive]
  · intro v w k hv; cases v <;> simp_all [pyEq, isSensitive]

/-- Clause equations of `pyLt` for a wrapped operand. -/
theorem pyLt_delegate (v w : PyVal) (m : String) :
    pyLt (.sensitive v m) w = pyLt v w ∧ pyLt v (.sensitive w m) = pyLt v w := by
  refine sensitive_dispatch pyLt ?_ ?_ ?_ v w m
  · intro v m w k; simp [pyLt]
  · intro v m w hw; cases w <;> simp_all [pyLt, isSensitive]
  · intro v w k hv; cases v <;> simp_all [pyLt, isSensitive]

/-- Clause equations of `pyLe` for a wrapped operand. -/
theorem pyLe_delegate (v w : PyVal) (m : String) :
    pyLe (.sensitive v m) w = pyLe v w ∧ pyLe v (.sensitive w m) = pyLe v w := by
  refine sensitive_dispatch pyLe ?_ ?_ ?_ v w m
  · intro v m w k; simp [pyLe]
  · intro v m w hw; cases w <;> simp_all [pyLe, isSensitive]
  · intro v w k hv; cases v <;> simp_all [pyLe, isSensitive]

/-- Clause equations of `pyAdd` for a wrapped operand. -/
theorem pyAdd_delegate (v w : PyVal) (m : String) :
    pyAdd (.sensitive v m) w = pyAdd v w ∧ pyAdd v (.sensitive w m) = pyAdd v w := by
  refine sensitive_dispatch pyAdd ?_ ?_ ?_ v w m
  · intro v m w k; simp [pyAdd]
  · intro v m w hw; cases w <;> simp_all [pyAdd, isSensitive]
  · intro v w k hv; cases v <;> simp_all [pyAdd, isSensitive]

/-- Clause equations of `pyMul` for a wrapped operand. -/
theorem pyMul_delegate (v w : PyVal) (m : String) :
    pyMul (.sensitive v m) w = pyMul v w ∧ pyMul v (.sensitive w m) = pyMul v w := by
  refine sensitive_dispatch pyMul ?_ ?_ ?_ v w m
  · intro v m w k; simp [pyMul]
  · intro v m w hw; cases w <;> simp_all [pyMul, isSensitive]
  · intro v w k hv; cases v <;> simp_all [pyMul, isSensitive]

/-- Once the inner call has returned normally, every remaining `LogOnError`
layer passes messages and result through unchanged. -/
theorem nest_aux_ok (cfgs : List LogOnErrorCfg) (msgs : List String) (v : PyVal) :
    cfgs.foldl (fun acc cfg => LogOnError_devlog_executor cfg acc) (msgs, .ok v)
      = (msgs, .ok v) := by
  induction cfgs with
  | nil => rfl
  | cons c rest ih => simpa [LogOnError_devlog_executor] using ih

/-- Once the propagating exception instance carries the `reraised` mark,
every remaining `LogOnError` layer emits nothing; the exception keeps
propagating until the first layer whose policy suppresses it, which makes
the call return `None`. -/
theorem nest_aux_marked (cfgs : List LogOnErrorCfg) (msgs : List String) (e : Exc)
    (h : e.reraised = true) :
    cfgs.foldl (fun acc cfg => LogOnError_devlog_executor cfg acc) (msgs, .raised e)
      = (msgs, if cfgs.all (fun c => c.reraise) then Outcome.raised e else Outcome.ok .vnone) := by
  induction cfgs generalizing msgs with
  | nil => rfl
  | cons c rest ih =>
      rw [List.foldl_cons]
      cases hc : c.reraise with
      | true =>
          have hstep : LogOnError_devlog_executor c (msgs, .raised e) = (msgs, .raised e) := by
            simp [LogOnError_devlog_executor, LogOnError_on_error, h, hc]
          rw [hstep, ih msgs]
          simp [hc]
      | false =>
          have hstep : LogOnError_devlog_executor c (msgs, .raised e) = (msgs, .ok .vnone) := by
            simp [LogOnError_devlog_executor, LogOnError_on_error, h, hc]
          rw [hstep, nest_aux_ok]
          simp [hc]

/-!
Claim theorems.
-/

/-- Claim C5 (counterexample): `format_value` applies the deny-list mask even
when the parameter name is empty, provided the empty name is a member of the
deny list — the claimed rule order requires a non-empty name there, which
would give `repr(42) = "42"` instead. -/
theorem format_value_empty_name_counterexample :
    format_value (.vint 42) "" (some [""]) = "***" ∧
    reprV (.vint 42) = "42" ∧ ("***" : String) ≠ "42" := by
  refine ⟨by decide, by decide, by decide⟩

/-- Claim C5 (amended): `format_value` applies exactly this rule order: a
`Sensitive` value returns its own mask; otherwise, when the deny list is
truthy (non-`None` and non-empty) and contains the parameter name — whether
or not the name is empty — the fixed mask `"***"` is returned; otherwise the
value's `repr`. -/
theorem format_value_rule_order :
    ∀ (u v : PyVal) (m name : String) (sp : Option (List String)),
      format_value (.sensitive u m) name sp = m ∧
      (isSensitive v = false →
        (truthySet sp && (sp.getD []).contains name) = true →
        format_value v name sp = "***") ∧
      (isSensitive v = false →
        (truthySet sp && (sp.getD []).contains name) = false →
        format_value v name sp = reprV v) := by
  intro u v m name sp
  refine ⟨?_, ?_, ?_⟩
  · simp [format_value, isSensitive, maskOf]
  · intro hv hc
    unfold format_value
    rw [hv, hc]
    simp
  · intro hv hc
    unfold format_value
    rw [hv, hc]
    simp

/-- Claim C5 witness: the amended rules evaluated at concrete inputs. -/
theorem format_value_rule_order_witness :
    format_value (.vstr "mypassword") "password" (some ["password"]) = "***" ∧
    format_value (.vstr "visible") "username" (some ["password"]) = reprV (.vstr "visible") :=
  ⟨(format_value_rule_order (.vstr "s") (.vstr "mypassword") "***" "password"
      (some ["password"])).2.1 rfl rfl,
   (format_value_rule_order (.vstr "s") (.vstr "visible") "***" "username"
      (some ["password"])).2.2 rfl rfl⟩

/-- Claim C7 (counterexample): with re-raise disabled, the suppressed failing
call produces exactly the same result as a legitimate successful call that
returns `None` — there is no distinct "no value" sentinel. -/
theorem LogOnError_no_distinct_sentinel :
    (LogOnError_devlog_executor ⟨none, false⟩ ([], .raised ⟨[0], false⟩)).2
      = (LogOnError_devlog_executor ⟨none, false⟩ ([], .ok .vnone)).2 := by
  simp [LogOnError_devlog_executor, LogOnError_on_error, exceptionMatches]

/-- Claim C7 (amended): with re-raise disabled and a matching, not yet
reported exception, the wrapped call returns to its caller without
propagating the exception, exactly one failure message is recorded, and the
call returns Python `None` — the same value as a legitimate successful
`None` return, not a distinct sentinel. -/
theorem LogOnError_suppress_policy :
    ∀ (cfg : LogOnErrorCfg) (e : Exc),
      cfg.reraise = false → exceptionMatches cfg e = true → e.reraised = false →
      LogOnError_devlog_executor cfg ([], .raised e)
        = ([LogOnError_message], .ok .vnone) := by
  intro cfg e h1 h2 h3
  simp [LogOnError_devlog_executor, LogOnError_on_error, h1, h2, h3]

/-- Claim C7 witness: the suppress policy evaluated at a concrete wrapper
and exception. -/
theorem LogOnError_suppress_policy_witness :
    LogOnError_devlog_executor ⟨none, false⟩ ([], .raised ⟨[0], false⟩)
      = ([LogOnError_message], .ok .vnone) :=
  LogOnError_suppress_policy ⟨none, false⟩ ⟨[0], false⟩ rfl rfl rfl

/-- Claim C8: when the raised exception does not match the configured
exception kinds, no failure message is emitted, yet the re-raise/suppress
policy still applies: the exception propagates unchanged under re-raise and
is swallowed (returning `None`) otherwise. -/
theorem LogOnError_nonmatching_policy :
    ∀ (cfg : LogOnErrorCfg) (e : Exc), exceptionMatches cfg e = false →
      LogOnError_devlog_executor cfg ([], .raised e)
        = ([], if cfg.reraise then Outcome.raised e else Outcome.ok .vnone) := by
  intro cfg e h
  simp [LogOnError_devlog_executor, LogOnError_on_error, h]

/-- Claim C8 witness: a `TypeError`-like exception against a
`ValueError`-only filter, with both policies. -/
theorem LogOnError_nonmatching_policy_witness :
    LogOnError_devlog_executor ⟨some [5], true⟩ ([], .raised ⟨[1, 0], false⟩)
        = ([], Outcome.raised ⟨[1, 0], false⟩) ∧
    LogOnError_devlog_executor ⟨some [5], false⟩ ([], .raised ⟨[1, 0], false⟩)
        = ([], Outcome.ok .vnone) :=
  ⟨by rw [LogOnError_nonmatching_policy ⟨some [5], true⟩ ⟨[1, 0], false⟩ rfl]; simp,
   by rw [LogOnError_nonmatching_policy ⟨some [5], false⟩ ⟨[1, 0], false⟩ rfl]; simp⟩

/-- Claim C9: a capture with internal frames excluded contains no frame
whose filename is registered; the same capture with internal frames included
retains every registered frame of the walked stack. -/
theorem get_stack_summary_internal_frames :
    ∀ (registry : List String) (stack : List FrameSummary),
      (∀ fr, fr ∈ get_stack_summary registry false stack →
        is_internal_file registry fr.filename = false) ∧
      (∀ fr, fr ∈ stack → is_internal_file registry fr.filename = true →
        fr ∈ get_stack_summary registry true stack) := by
  intro registry stack
  constructor
  · intro fr hfr
    have hmem := List.mem_filter.mp hfr
    simpa using hmem.2
  · intro fr hfr hint
    refine List.mem_filter.mpr ⟨List.mem_reverse.mpr hfr, by simp⟩

/-- Claim C9 witness: the filter evaluated over a concrete registry and
stack containing one registered and one caller frame. -/
theorem get_stack_summary_internal_frames_witness :
    is_internal_file devlog_internal_files "app.py" = false ∧
    (⟨"devlog/base.py", 184⟩ : FrameSummary) ∈
      get_stack_summary devlog_internal_files true
        [⟨"devlog/base.py", 184⟩, ⟨"app.py", 10⟩] :=
  ⟨(get_stack_summary_internal_frames devlog_internal_files
      [⟨"devlog/base.py", 184⟩, ⟨"app.py", 10⟩]).1 ⟨"app.py", 10⟩ (by decide),
   (get_stack_summary_internal_frames devlog_internal_files
      [⟨"devlog/base.py", 184⟩, ⟨"app.py", 10⟩]).2 ⟨"devlog/base.py", 184⟩
      (by decide) (by decide)⟩

/-- Claim C10: in `LogOnError`, the two capture flags are coupled: both end
up equal to `trace_stack OR capture_locals`, so enabling either forces the
other, and every trace it captures renders locals whenever tracing is
enabled. -/
theorem LogOnError_flags_coupled :
    ∀ t c : Bool,
      (LogOnError_init_flags t c).trace_stack = (t || c) ∧
      (LogOnError_init_flags t c).capture_locals = (t || c) ∧
      (t = true → (LogOnError_init_flags t c).capture_locals = true) ∧
      (c = true → (LogOnError_init_flags t c).trace_stack = true) ∧
      ((LogOnError_init_flags t c).trace_stack = true →
        (LogOnError_init_flags t c).capture_locals = true) := by
  decide

/-- Claim C10 witness: each forcing direction evaluated at a concrete flag
assignment. -/
theorem LogOnError_flags_coupled_witness :
    (LogOnError_init_flags true false).capture_locals = true ∧
    (LogOnError_init_flags false true).trace_stack = true :=
  ⟨(LogOnError_flags_coupled true false).2.2.1 rfl,
   (LogOnError_flags_coupled false true).2.2.2.1 rfl⟩

/-- Claim C1 (code evaluation at the failing input): the instrumented call
passes the `Sensitive` wrapper itself to the target — the value the capture
target receives is still wrapped — while the unused `_unwrap_args` helper
would have delivered the real value, as the repository's own test
`test_sensitive_unwrapped_for_function` expects. -/
theorem target_receives_wrapped_sensitive :
    (LogOnStart_wrapped_call false none "capture" capture_fn
        [.sensitive (.vstr "real_secret") "***"] []).2
      = .sensitive (.vstr "real_secret") "***" ∧
    isSensitive (LogOnStart_wrapped_call false none "capture" capture_fn
        [.sensitive (.vstr "real_secret") "***"] []).2 = true ∧
    (unwrap_args [.sensitive (.vstr "real_secret") "***"] []).1
      = [.vstr "real_secret"] :=
  ⟨rfl, rfl, rfl⟩

/-- Claim C2 (code evaluation at the failing input): the wrapper around a
coroutine target keeps the asynchronous classification, but routes the call
to the base `_async_devlog_executor`, which `LogOnStart` never overrides —
so the async call emits no message, while the equivalent synchronous call
emits the start message; the returned result is the same on both paths. -/
theorem async_wrapper_bypasses_logging :
    devlog_wrapper_is_async true = true ∧
    (LogOnStart_wrapped_call true none "async_generic_func" async_add_fn
        [.vint 1, .vint 2] []).1 = [] ∧
    (LogOnStart_wrapped_call false none "async_generic_func" async_add_fn
        [.vint 1, .vint 2] []).1
      = ["Start func async_generic_func with args (1, 2), kwargs \x7b\x7d"] ∧
    (LogOnStart_wrapped_call true none "async_generic_func" async_add_fn
        [.vint 1, .vint 2] []).1
      ≠ (LogOnStart_wrapped_call false none "async_generic_func" async_add_fn
        [.vint 1, .vint 2] []).1 ∧
    (LogOnStart_wrapped_call true none "async_generic_func" async_add_fn
        [.vint 1, .vint 2] []).2
      = (LogOnStart_wrapped_call false none "async_generic_func" async_add_fn
        [.vint 1, .vint 2] []).2 := by
  refine ⟨rfl, rfl, by decide, by decide, rfl⟩

/-- Once the propagating exception is unmarked but matches no filter of a
run of wrappers that all re-raise, those wrappers pass the messages and the
unchanged exception through. -/
theorem nest_aux_nonmatching (inner : List LogOnErrorCfg) (msgs : List String) (e : Exc)
    (h : ∀ cfg ∈ inner, exceptionMatches cfg e = false ∧ cfg.reraise = true) :
    inner.foldl (fun acc cfg => LogOnError_devlog_executor cfg acc) (msgs, .raised e)
      = (msgs, .raised e) := by
  induction inner with
  | nil => rfl
  | cons c rest ih =>
      obtain ⟨hm, hr⟩ := h c (by simp)
      rw [List.foldl_cons]
      have hstep : LogOnError_devlog_executor c (msgs, .raised e) = (msgs, .raised e) := by
        simp [LogOnError_devlog_executor, LogOnError_on_error, hm, hr]
      rw [hstep]
      exact ih (fun cfg hc => h cfg (by simp [hc]))

/-- Claim C3 (counterexample): two nested on-failure wrappers around a
single raised, never-reported exception instance can emit zero failure
messages — the inner wrapper's exception-kind filter does not match, so it
does not log, and its re-raise policy is disabled, so it swallows the
exception before the outer, matching wrapper ever observes it — refuting
"exactly one failure message is emitted regardless of N". -/
theorem nested_log_on_error_zero_messages :
    (nest_log_on_error [⟨some [5], false⟩, ⟨none, true⟩]
        (.raised ⟨[1, 0], false⟩)).1 = [] ∧
    (nest_log_on_error [⟨some [5], false⟩, ⟨none, true⟩]
        (.raised ⟨[1, 0], false⟩)).1.length ≠ 1 :=
  ⟨rfl, by decide⟩

/-- Claim C3 (amended): across any `N ≥ 2` nested on-failure wrappers with
arbitrary exception-kind filters and re-raise policies, at most one failure
message is ever emitted for a single raised, not yet reported exception
instance; and exactly one message is emitted — by the innermost wrapper
whose filter matches, which marks the instance — provided every
non-matching wrapper nested inside that wrapper re-raises (so the exception
actually reaches it).  Every wrapper outside the emitting one detects the
mark, skips emission, and still applies its own re-raise/suppress policy,
so the marked exception propagates exactly when the emitting wrapper and
all wrappers outside it re-raise. -/
theorem nested_log_on_error_innermost_match :
    ∀ (e : Exc), e.reraised = false →
      (∀ cfgs : List LogOnErrorCfg,
        (nest_log_on_error cfgs (.raised e)).1.length ≤ 1) ∧
      (∀ (inner outer : List LogOnErrorCfg) (c : LogOnErrorCfg),
        2 ≤ (inner ++ c :: outer).length →
        (∀ cfg ∈ inner, exceptionMatches cfg e = false ∧ cfg.reraise = true) →
        exceptionMatches c e = true →
        (nest_log_on_error (inner ++ c :: outer) (.raised e)).1 = [LogOnError_message] ∧
        (nest_log_on_error (inner ++ c :: outer) (.raised e)).2
          = (if c.reraise && outer.all (fun k => k.reraise) then Outcome.raised ⟨e.cls, true⟩
             else Outcome.ok .vnone)) := by
  intro e he
  constructor
  · intro cfgs
    induction cfgs with
    | nil => simp [nest_log_on_error]
    | cons c rest ih =>
        unfold nest_log_on_error
        rw [List.foldl_cons]
        cases hm : exceptionMatches c e with
        | true =>
            cases hr : c.reraise with
            | true =>
                have hstep : LogOnError_devlog_executor c ([], .raised e)
                    = ([LogOnError_message], .raised ⟨e.cls, true⟩) := by
                  simp [LogOnError_devlog_executor, LogOnError_on_error, hm, he, hr]
                rw [hstep, nest_aux_marked rest [LogOnError_message] ⟨e.cls, true⟩ rfl]
                split <;> simp
            | false =>
                have hstep : LogOnError_devlog_executor c ([], .raised e)
                    = ([LogOnError_message], .ok .vnone) := by
                  simp [LogOnError_devlog_executor, LogOnError_on_error, hm, he, hr]
                rw [hstep, nest_aux_ok]
                simp
        | false =>
            cases hr : c.reraise with
            | true =>
                have hstep : LogOnError_devlog_executor c ([], .raised e)
                    = ([], .raised e) := by
                  simp [LogOnError_devlog_executor, LogOnError_on_error, hm, hr]
                rw [hstep]
                exact ih
            | false =>
                have hstep : LogOnError_devlog_executor c ([], .raised e)
                    = ([], .ok .vnone) := by
                  simp [LogOnError_devlog_executor, LogOnError_on_error, hm, hr]
                rw [hstep, nest_aux_ok]
                simp
  · intro inner outer c hlen hinner hc
    unfold nest_log_on_error
    rw [List.foldl_append, nest_aux_nonmatching inner [] e hinner, List.foldl_cons]
    cases hr : c.reraise with
    | true =>
        have hstep : LogOnError_devlog_executor c ([], .raised e)
            = ([LogOnError_message], .raised ⟨e.cls, true⟩) := by
          simp [LogOnError_devlog_executor, LogOnError_on_error, hc, he, hr]
        rw [hstep, nest_aux_marked outer [LogOnError_message] ⟨e.cls, true⟩ rfl]
        exact ⟨rfl, by simp⟩
    | false =>
        have hstep : LogOnError_devlog_executor c ([], .raised e)
            = ([LogOnError_message], .ok .vnone) := by
          simp [LogOnError_devlog_executor, LogOnError_on_error, hc, he, hr]
        rw [hstep, nest_aux_ok]
        exact ⟨rfl, by simp⟩

/-- Claim C3 witness: a heterogeneous three-wrapper stack — a non-matching
re-raising inner wrapper, a matching middle wrapper, and a non-matching,
suppressing outer wrapper — emits exactly one message; and the
zero-message stack of the counterexample still satisfies the at-most-one
bound. -/
theorem nested_log_on_error_innermost_match_witness :
    (nest_log_on_error [⟨some [5], true⟩, ⟨none, true⟩, ⟨some [5], false⟩]
        (.raised ⟨[1, 0], false⟩)).1 = [LogOnError_message] ∧
    (nest_log_on_error [⟨some [5], false⟩, ⟨none, true⟩]
        (.raised ⟨[1, 0], false⟩)).1.length ≤ 1 :=
  ⟨((nested_log_on_error_innermost_match ⟨[1, 0], false⟩ rfl).2 [⟨some [5], true⟩]
      [⟨some [5], false⟩] ⟨none, true⟩ (by decide) (by decide) rfl).1,
   (nested_log_on_error_innermost_match ⟨[1, 0], false⟩ rfl).1
      [⟨some [5], false⟩, ⟨none, true⟩]⟩

/-- Claim C4: rendering a wrapped value for a log yields its mask, while
equality, ordering, length, membership, indexing, iteration, arithmetic,
invocation, and hashing on the wrapped value all behave exactly as on the
real value, with a wrapped operand on the other side unwrapped
symmetrically — so a `Sensitive` is usable as a dict key or set member
transparently. -/
theorem sensitive_transparent_proxy :
    ∀ (v w x k : PyVal) (m : String) (ρ : String → PyVal → PyVal),
      format_value (.sensitive v m) "" none = m ∧
      pyEq (.sensitive v m) w = pyEq v w ∧
      pyEq w (.sensitive v m) = pyEq w v ∧
      pyLt (.sensitive v m) w = pyLt v w ∧
      pyLt w (.sensitive v m) = pyLt w v ∧
      pyLe (.sensitive v m) w = pyLe v w ∧
      pyLe w (.sensitive v m) = pyLe w v ∧
      pyLen (.sensitive v m) = pyLen v ∧
      pyContains (.sensitive v m) x = pyContains v x ∧
      pyGetItem (.sensitive v m) k = pyGetItem v k ∧
      pyIter (.sensitive v m) = pyIter v ∧
      pyAdd (.sensitive v m) w = pyAdd v w ∧
      pyAdd w (.sensitive v m) = pyAdd w v ∧
      pyMul (.sensitive v m) w = pyMul v w ∧
      pyMul w (.sensitive v m) = pyMul w v ∧
      applyF ρ (.sensitive v m) x = applyF ρ v x ∧
      pyHash (.sensitive v m) = pyHash v := by
  intro v w x k m ρ
  refine ⟨?_, (pyEq_delegate v w m).1, (pyEq_delegate w v m).2, (pyLt_delegate v w m).1,
    (pyLt_delegate w v m).2, (pyLe_delegate v w m).1, (pyLe_delegate w v m).2, ?_, ?_, ?_, ?_,
    (pyAdd_delegate v w m).1, (pyAdd_delegate w v m).2, (pyMul_delegate v w m).1,
    (pyMul_delegate w v m).2, ?_, ?_⟩
  · simp [format_value, isSensitive, maskOf]
  · simp [pyLen]
  · simp [pyContains]
  · simp [pyGetItem]
  · simp [pyIter]
  · simp [applyF]
  · simp [pyHash]

/-- Claim C6 (counterexample): skipping the element-wise formatting step is
observable — for the plain call `generic_func(1)` the optimized path renders
the raw tuple while forced formatting renders the repr strings quoted, so
the two built messages differ. -/
theorem build_msg_optimization_observable :
    build_msg none "generic_func" [.vint 1] []
      ≠ build_msg_forced none "generic_func" [.vint 1] [] := by
  decide

/-- Claim C6 (amended): element-wise formatting is applied exactly when a
`Sensitive` argument is present or the deny list is truthy — in which case
the optimized and unoptimized message constructions coincide — and whenever
the fast path skips formatting, `format_value` would have returned exactly
each value's `repr`, so no redaction is lost; the full message texts still
differ in general, as the counterexample shows. -/
theorem build_msg_skip_condition_sound :
    ∀ (sp : Option (List String)) (fname : String) (args : List PyVal)
      (kwargs : List (String × PyVal)),
      ((truthySet sp || args.any isSensitive) = true →
       (truthySet sp || kwargs.any (fun kv => isSensitive kv.2)) = true →
       build_msg sp fname args kwargs = build_msg_forced sp fname args kwargs) ∧
      ((truthySet sp || args.any isSensitive) = false →
       args.map (fun a => format_value a "" sp) = args.map reprV) ∧
      ((truthySet sp || kwargs.any (fun kv => isSensitive kv.2)) = false →
       kwargs.map (fun kv => (kv.1, format_value kv.2 kv.1 sp))
         = kwargs.map (fun kv => (kv.1, reprV kv.2))) := by
  intro sp fname args kwargs
  refine ⟨?_, ?_, ?_⟩
  · intro h1 h2
    simp [build_msg, build_msg_forced, sanitized_args, sanitized_kwargs, h1, h2]
  · intro h
    rw [Bool.or_eq_false_iff] at h
    obtain ⟨hsp, hargs⟩ := h
    induction args with
    | nil => rfl
    | cons a rest ih =>
        rw [List.any_cons, Bool.or_eq_false_iff] at hargs
        obtain ⟨ha, hrest⟩ := hargs
        have hval : format_value a "" sp = reprV a := by
          unfold format_value
          rw [ha, hsp]
          simp
        simp only [List.map_cons, hval, ih hrest]
  · intro h
    rw [Bool.or_eq_false_iff] at h
    obtain ⟨hsp, hkw⟩ := h
    induction kwargs with
    | nil => rfl
    | cons kv rest ih =>
        rw [List.any_cons, Bool.or_eq_false_iff] at hkw
        obtain ⟨hv, hrest⟩ := hkw
        have hval : format_value kv.2 kv.1 sp = reprV kv.2 := by
          unfold format_value
          rw [hv, hsp]
          simp
        simp only [List.map_cons, hval, ih hrest]

/-- Claim C6 witness: the amended equivalence evaluated at concrete inputs —
a deny-listed call takes the formatted path on both constructions, and a
plain call's skipped formatting would have been exactly `repr`. -/
theorem build_msg_skip_condition_sound_witness :
    build_msg (some ["password"]) "login" [.vstr "secret123"] []
      = build_msg_forced (some ["password"]) "login" [.vstr "secret123"] [] ∧
    [(.vint 1 : PyVal)].map (fun a => format_value a "" none)
      = [(.vint 1 : PyVal)].map reprV :=
  ⟨(build_msg_skip_condition_sound (some ["password"]) "login" [.vstr "secret123"] []).1 rfl rfl,
   (build_msg_skip_condition_sound none "login" [.vint 1] []).2.1 rfl⟩
